import Mathlib

/-!
Shallow embedding of the booking/balance core of the
Plataforma-de-Reservas backend.

Sources embedded:
* `src/functions/src/services/balanceService.ts` — `BalanceServiceImpl`
  (`executeAtomicOperation`, `executeMultiUserOperation`,
  `createBookingPaymentOperations`, `createBookingRefundOperations`);
* `src/unnamed/part_018` — `BookingServiceImpl` (`createBooking`,
  `cancelBooking`, `getBookingById`, `getBookingHistory`,
  `validateBookingCreation`);
* `src/unnamed/part_012` — booking utils (`canCancelBooking`,
  `canUserCancelBooking`, `validateBookingBusinessRules`,
  `calculateRefundAmount`).

Modelling conventions:
* JS numbers are modelled as `ℚ`; `Math.round(x * 100) / 100` becomes
  `round2`.  Mathlib's `round` is `⌊x + 1/2⌋`, which agrees with JS
  `Math.round` (half-up towards positive infinity).
* Firestore documents live in in-memory lists inside a `Db` record; a
  Firestore transaction (all-or-nothing commit) becomes a pure function
  `Db → Db × result` that returns the input `Db` unchanged on every
  failure path.
* A possibly-missing `balance` field (`userData.balance || 0`) is an
  `Option ℚ` read with `Option.getD 0`.
* Wall-clock timestamps (`new Date().getTime()`) are modelled by a fixed
  field `Db.now`; Firestore auto-generated document ids
  (`collection.doc()`) and `generateBookingId` are modelled
  deterministically from the current collection size.
-/

/-- `Math.round (q * 100) / 100` — balance precision, 2 decimal places. -/
def round2 (q : ℚ) : ℚ := ((round (q * 100) : ℤ) : ℚ) / 100

/-- A `users` collection document.  `balance` is `Option ℚ` because the
stored field may be absent (the code reads it as `userData.balance || 0`). -/
structure User where
  id : String
  fullName : String
  userType : String
  isActive : Bool
  balance : Option ℚ
deriving Repr, DecidableEq

/-- A `services` collection document (the fields used by the booking flow). -/
structure Service where
  id : String
  name : String
  price : ℚ
  providerId : String
  providerName : String
  isActive : Bool
deriving Repr, DecidableEq

/-- A `bookings` collection document (`Booking` in `models/booking`). -/
structure Booking where
  id : String
  clientId : String
  clientName : String
  serviceId : String
  serviceName : String
  providerId : String
  providerName : String
  amount : ℚ
  status : String
  createdAt : ℚ
  cancelledAt : Option ℚ
  cancellationReason : Option String
deriving Repr, DecidableEq

/-- A `balance_transactions` ledger document (`BalanceTransaction`). -/
structure BalanceTransaction where
  id : String
  userId : String
  bookingId : String
  amount : ℚ
  type : String
  description : String
  timestamp : ℚ
  balanceBefore : ℚ
  balanceAfter : ℚ
deriving Repr, DecidableEq

/-- `AtomicBalanceOperation` from `balanceService.ts`.  `type` is the
string `"debit"` or `"credit"` exactly as in the source. -/
structure AtomicBalanceOperation where
  userId : String
  amount : ℚ
  type : String
  description : String
  bookingId : Option String := none
deriving Repr, DecidableEq

/-- `MultiUserBalanceOperation` from `balanceService.ts`. -/
structure MultiUserBalanceOperation where
  operations : List AtomicBalanceOperation
  bookingId : String
  description : String
deriving Repr, DecidableEq

/-- `BalanceOperationResult` from `balanceService.ts`. -/
structure BalanceOperationResult where
  success : Bool
  balanceBefore : ℚ
  balanceAfter : ℚ
  transactionId : Option String := none
  error : Option String := none
deriving Repr, DecidableEq

/-- Decidable equality for `Except`, used to evaluate the embedded
operations on concrete inputs. -/
instance {ε α : Type} [DecidableEq ε] [DecidableEq α] :
    DecidableEq (Except ε α) := fun x y =>
  match x, y with
  | .ok a, .ok b =>
    if h : a = b then .isTrue (by rw [h])
    else .isFalse (by intro he; cases he; exact h rfl)
  | .error a, .error b =>
    if h : a = b then .isTrue (by rw [h])
    else .isFalse (by intro he; cases he; exact h rfl)
  | .ok _, .error _ => .isFalse (by intro he; cases he)
  | .error _, .ok _ => .isFalse (by intro he; cases he)

/-- The Firestore database state visible to the embedded code. -/
structure Db where
  users : List User
  services : List Service
  bookings : List Booking
  txns : List BalanceTransaction
  now : ℚ
deriving Repr, DecidableEq

/-- `usersCollection.doc(uid).get()` — first document whose id matches. -/
def findUser (db : Db) (uid : String) : Option User :=
  db.users.find? (fun u => u.id == uid)

/-- `servicesCollection.doc(sid).get()`. -/
def findService (db : Db) (sid : String) : Option Service :=
  db.services.find? (fun s => s.id == sid)

/-- `transaction.update(userRef, { balance: newBalance, ... })` — set the
balance field of the matching user document. -/
def updateUserBalance (users : List User) (uid : String) (newBal : ℚ) :
    List User :=
  users.map (fun u => if u.id == uid then { u with balance := some newBal } else u)

/-- Current balance of account `uid` as the code reads it
(`userData.balance || 0`; a missing user also reads as 0). -/
def balanceOf (db : Db) (uid : String) : ℚ :=
  ((findUser db uid).map (fun u => u.balance.getD 0)).getD 0

/-- Id of the next ledger document (`transactionsCollection.doc()`
generates a fresh id; modelled deterministically from the ledger size). -/
def nextTxnId (db : Db) : String := "txn_" ++ toString db.txns.length

/-- The failure `BalanceOperationResult` built in the `catch` blocks of
`executeAtomicOperation` / `executeMultiUserOperation`. -/
def failResult (e : String) : BalanceOperationResult :=
  { success := false, balanceBefore := 0, balanceAfter := 0,
    transactionId := none, error := some e }

/-- `BalanceServiceImpl.executeAtomicOperation`: one balance mutation plus
its ledger record inside one Firestore transaction; any thrown error is
caught and turned into a failure result with no state change. -/
def executeAtomicOperation (db : Db) (op : AtomicBalanceOperation) :
    Db × BalanceOperationResult :=
  match findUser db op.userId with
  | none => (db, failResult "User not found")
  | some u =>
    if !u.isActive then (db, failResult "User account is inactive")
    else
      let current := u.balance.getD 0
      if op.type == "debit" && current - |op.amount| < 0 then
        (db, failResult ("Insufficient balance. Current: " ++ toString current
          ++ ", Required: " ++ toString |op.amount|))
      else
        let nb := round2 (if op.type == "debit" then current - |op.amount|
                          else current + |op.amount|)
        let tid := nextTxnId db
        let tx : BalanceTransaction :=
          { id := tid, userId := op.userId, bookingId := op.bookingId.getD "",
            amount := |op.amount|, type := op.type,
            description := op.description, timestamp := db.now,
            balanceBefore := current, balanceAfter := nb }
        ({ db with users := updateUserBalance db.users op.userId nb,
                   txns := db.txns ++ [tx] },
         { success := true, balanceBefore := current, balanceAfter := nb,
           transactionId := some tid, error := none })

/-- Phase 1 of `executeMultiUserOperation`: fetch every referenced user
document and validate existence and activity, in operation order. -/
def lookupUsers (db : Db) :
    List AtomicBalanceOperation →
    Except String (List (AtomicBalanceOperation × User))
  | [] => .ok []
  | op :: rest =>
    match findUser db op.userId with
    | none => .error ("User " ++ op.userId ++ " not found")
    | some u =>
      if !u.isActive then .error ("User account " ++ op.userId ++ " is inactive")
      else (lookupUsers db rest).map (fun ps => (op, u) :: ps)

/-- One entry of the `balanceChanges` array of `executeMultiUserOperation`. -/
structure BalanceChange where
  op : AtomicBalanceOperation
  currentBalance : ℚ
  newBalance : ℚ
deriving Repr, DecidableEq

/-- Phase 2 of `executeMultiUserOperation`: compute every new balance from
the initially read snapshots, failing on the first debit that would go
negative. -/
def computeChanges :
    List (AtomicBalanceOperation × User) → Except String (List BalanceChange)
  | [] => .ok []
  | (op, u) :: rest =>
    let current := u.balance.getD 0
    if op.type == "debit" then
      if current - |op.amount| < 0 then
        .error ("Insufficient balance for user " ++ op.userId ++ ". Current: "
          ++ toString current ++ ", Required: " ++ toString |op.amount|)
      else
        (computeChanges rest).map (fun cs =>
          { op := op, currentBalance := current,
            newBalance := round2 (current - |op.amount|) } :: cs)
    else
      (computeChanges rest).map (fun cs =>
        { op := op, currentBalance := current,
          newBalance := round2 (current + |op.amount|) } :: cs)

/-- Phase 3 of `executeMultiUserOperation`: apply every balance update and
append one ledger record per leg (last write wins on a repeated user). -/
def applyChanges (bookingId : String) :
    Db → List BalanceChange → Db × List BalanceOperationResult
  | db, [] => (db, [])
  | db, ch :: rest =>
    let tid := nextTxnId db
    let tx : BalanceTransaction :=
      { id := tid, userId := ch.op.userId, bookingId := bookingId,
        amount := |ch.op.amount|, type := ch.op.type,
        description := ch.op.description, timestamp := db.now,
        balanceBefore := ch.currentBalance, balanceAfter := ch.newBalance }
    let db' : Db :=
      { db with
        users := updateUserBalance db.users ch.op.userId ch.newBalance,
        txns := db.txns ++ [tx] }
    let res := applyChanges bookingId db' rest
    (res.1,
     { success := true, balanceBefore := ch.currentBalance,
       balanceAfter := ch.newBalance, transactionId := some tid,
       error := none } :: res.2)

/-- `BalanceServiceImpl.executeMultiUserOperation`: all legs succeed inside
one Firestore transaction or every leg reports the same failure and the
state is unchanged. -/
def executeMultiUserOperation (db : Db) (m : MultiUserBalanceOperation) :
    Db × List BalanceOperationResult :=
  match lookupUsers db m.operations with
  | .error e => (db, m.operations.map (fun _ => failResult e))
  | .ok pairs =>
    match computeChanges pairs with
    | .error e => (db, m.operations.map (fun _ => failResult e))
    | .ok changes => applyChanges m.bookingId db changes

/-- `BalanceServiceImpl.createBookingPaymentOperations`: client debit plus
provider credit, amounts passed through unchanged. -/
def createBookingPaymentOperations (clientId providerId : String) (amount : ℚ)
    (bookingId serviceName : String) : MultiUserBalanceOperation :=
  { operations :=
      [ { userId := clientId, amount := amount, type := "debit",
          description := "Payment for service: " ++ serviceName,
          bookingId := some bookingId },
        { userId := providerId, amount := amount, type := "credit",
          description := "Payment received for service: " ++ serviceName,
          bookingId := some bookingId } ],
    bookingId := bookingId,
    description := "Booking payment for service: " ++ serviceName }

/-- `BalanceServiceImpl.createBookingRefundOperations`: client credit plus
provider debit, amounts passed through unchanged. -/
def createBookingRefundOperations (clientId providerId : String) (amount : ℚ)
    (bookingId serviceName : String) : MultiUserBalanceOperation :=
  { operations :=
      [ { userId := clientId, amount := amount, type := "credit",
          description := "Refund for cancelled booking: " ++ serviceName,
          bookingId := some bookingId },
        { userId := providerId, amount := amount, type := "debit",
          description := "Refund issued for cancelled booking: " ++ serviceName,
          bookingId := some bookingId } ],
    bookingId := bookingId,
    description := "Booking refund for service: " ++ serviceName }

/-! ## Booking utils (`src/unnamed/part_012`) -/

/-- `canCancelBooking` from the booking utils. -/
def canCancelBooking (b : Booking) : Bool := b.status == "confirmed"

/-- `canUserCancelBooking` from the booking utils: the status check comes
first, then the party checks. -/
def canUserCancelBooking (b : Booking) (userId userType : String) : Bool :=
  if !canCancelBooking b then false
  else if userType == "client" && b.clientId == userId then true
  else if userType == "provider" && b.providerId == userId then true
  else false

/-- `validateBookingBusinessRules`: returns `(isValid, errors)` with the
error strings accumulated in source order. -/
def validateBookingBusinessRules (clientBalance servicePrice : ℚ)
    (serviceActive providerActive : Bool) : Bool × List String :=
  let errors :=
    (if !serviceActive then ["Service is not active"] else []) ++
    (if !providerActive then ["Service provider is not active"] else []) ++
    (if clientBalance < servicePrice then
       ["Insufficient balance to complete booking"] else []) ++
    (if servicePrice ≤ 0 then
       ["Service price must be greater than zero"] else [])
  (errors.isEmpty, errors)

/-- `calculateRefundAmount`: always the full booking amount. -/
def calculateRefundAmount (b : Booking) : ℚ := b.amount

/-! ## Booking service (`src/unnamed/part_018`) -/

/-- `BookingCreationContext` from `models/booking`. -/
structure BookingCreationContext where
  clientId : String
  serviceId : String
  clientBalance : ℚ
  servicePrice : ℚ
  serviceActive : Bool
  providerActive : Bool
deriving Repr, DecidableEq

/-- Id of the next booking document (`generateBookingId` produces a fresh
random id; modelled deterministically from the collection size). -/
def generateBookingId (db : Db) : String :=
  "booking_" ++ toString db.bookings.length

/-- `BookingServiceImpl.getBookingById`. -/
def getBookingById (db : Db) (bookingId : String) : Option Booking :=
  db.bookings.find? (fun b => b.id == bookingId)

/-- `BookingServiceImpl.validateBookingCreation`: load and validate client,
service and provider, in source order.  The client balance is read as
`userService.getUserById` returns it (`userData.balance || 0`). -/
def validateBookingCreation (db : Db) (clientId serviceId : String) :
    Except String BookingCreationContext :=
  match findUser db clientId with
  | none => .error "Client not found"
  | some client =>
    if !client.isActive then .error "Client account is inactive"
    else if client.userType != "client" then
      .error "Only clients can create bookings"
    else
      match findService db serviceId with
      | none => .error "Service not found"
      | some service =>
        if !service.isActive then .error "Service is not active"
        else
          match findUser db service.providerId with
          | none => .error "Service provider not found"
          | some provider =>
            if !provider.isActive then
              .error "Service provider account is inactive"
            else
              .ok { clientId := client.id, serviceId := service.id,
                    clientBalance := client.balance.getD 0,
                    servicePrice := service.price,
                    serviceActive := service.isActive,
                    providerActive := provider.isActive }

/-- `BookingServiceImpl.createBooking`.  The outer Firestore transaction
buffers the booking write and aborts it when the balance transfer (run by
`executeMultiUserOperation`) reports any failed leg; sequentially the net
effect is: on success the transfer state plus the appended booking, on any
failure the unchanged input state and a thrown error message. -/
def createBooking (db : Db) (clientId serviceId : String) :
    Db × Except String Booking :=
  match validateBookingCreation db clientId serviceId with
  | .error e => (db, .error e)
  | .ok ctx =>
    let rules := validateBookingBusinessRules ctx.clientBalance
      ctx.servicePrice ctx.serviceActive ctx.providerActive
    if !rules.1 then (db, .error (String.intercalate ", " rules.2))
    else
      match findService db serviceId, findUser db clientId with
      | some service, some client =>
        let bookingId := generateBookingId db
        let booking : Booking :=
          { id := bookingId, clientId := client.id,
            clientName := client.fullName, serviceId := service.id,
            serviceName := service.name, providerId := service.providerId,
            providerName := service.providerName, amount := service.price,
            status := "confirmed", createdAt := db.now,
            cancelledAt := none, cancellationReason := none }
        let ops := createBookingPaymentOperations client.id
          service.providerId service.price bookingId service.name
        let step := executeMultiUserOperation db ops
        match step.2.find? (fun r => !r.success) with
        | some r =>
          (step.1, .error ("Balance operation failed: " ++ r.error.getD ""))
        | none =>
          ({ step.1 with bookings := step.1.bookings ++ [booking] },
           .ok booking)
      | _, _ => (db, .error "Service or client not found")

/-- `transaction.update(bookingRef, updateData)` in `cancelBooking`: set
status, cancellation timestamp and stored reason on the matching booking
document (`cancellationReason: cancellationReason || undefined` drops an
empty string). -/
def markCancelled (bookings : List Booking) (bookingId : String) (now : ℚ)
    (reason : Option String) : List Booking :=
  bookings.map (fun b =>
    if b.id == bookingId then
      { b with status := "cancelled", cancelledAt := some now,
               cancellationReason :=
                 reason.bind (fun s => if s == "" then none else some s) }
    else b)

/-- `BookingServiceImpl.cancelBooking`: authorization check first, then the
status check, then one atomic unit updating the booking and running the
refund transfer.  The returned booking object keeps the raw reason. -/
def cancelBooking (db : Db) (bookingId userId userType : String)
    (cancellationReason : Option String) : Db × Except String Booking :=
  match getBookingById db bookingId with
  | none => (db, .error "Booking not found")
  | some existing =>
    if !canUserCancelBooking existing userId userType then
      (db, .error "You do not have permission to cancel this booking")
    else if existing.status != "confirmed" then
      (db, .error "Only confirmed bookings can be cancelled")
    else
      let refundAmount := calculateRefundAmount existing
      let updated : Booking :=
        { existing with status := "cancelled", cancelledAt := some db.now,
                        cancellationReason := cancellationReason }
      let ops := createBookingRefundOperations existing.clientId
        existing.providerId refundAmount bookingId existing.serviceName
      let step := executeMultiUserOperation db ops
      match step.2.find? (fun r => !r.success) with
      | some r =>
        (step.1, .error ("Refund operation failed: " ++ r.error.getD ""))
      | none =>
        ({ step.1 with
            bookings := markCancelled step.1.bookings bookingId db.now
              cancellationReason },
         .ok updated)

/-! ## Booking query layer (`getBookingHistory` in `src/unnamed/part_018`) -/

/-- `BookingFilters` from `models/booking` (the fields `getBookingHistory`
reads).  Dates/timestamps are `ℚ` millisecond values. -/
structure BookingFilters where
  clientId : Option String := none
  providerId : Option String := none
  serviceId : Option String := none
  status : Option String := none
  startDate : Option ℚ := none
  endDate : Option ℚ := none
  minAmount : Option ℚ := none
  maxAmount : Option ℚ := none
  sortBy : Option String := none
  sortOrder : Option String := none
  limit : Option Nat := none
  offset : Option Nat := none
deriving Repr, DecidableEq

/-- `BookingSearchResult` from `models/booking`. -/
structure BookingSearchResult where
  bookings : List Booking
  total : Nat
  hasMore : Bool
  filters : BookingFilters
deriving Repr, DecidableEq

/-- JS truthiness of an optional string (`if (filters?.clientId)` skips the
filter for an absent or empty string). -/
def strTruthy (o : Option String) : Option String :=
  o.bind (fun s => if s == "" then none else some s)

/-- Value of a named `Booking` document field, for Firestore `orderBy`;
`none` when the document lacks the field (Firestore then excludes it from
the ordered results). -/
def bookingFieldVal (f : String) (b : Booking) : Option (ℚ ⊕ String) :=
  match f with
  | "createdAt" => some (.inl b.createdAt)
  | "amount" => some (.inl b.amount)
  | "status" => some (.inr b.status)
  | "clientId" => some (.inr b.clientId)
  | "clientName" => some (.inr b.clientName)
  | "serviceId" => some (.inr b.serviceId)
  | "serviceName" => some (.inr b.serviceName)
  | "providerId" => some (.inr b.providerId)
  | "providerName" => some (.inr b.providerName)
  | "cancelledAt" => b.cancelledAt.map .inl
  | "cancellationReason" => b.cancellationReason.map .inr
  | _ => none

/-- Firestore value comparison restricted to the field types above
(numbers order before strings). -/
def cmpVal : ℚ ⊕ String → ℚ ⊕ String → Ordering
  | .inl a, .inl b => if a < b then .lt else if b < a then .gt else .eq
  | .inl _, .inr _ => .lt
  | .inr _, .inl _ => .gt
  | .inr a, .inr b => compare a b

/-- Firestore `orderBy(field, dir)` orders by the field value and breaks
ties by document id, reversing both for a descending sort: `fsLe` holds
when `a` comes no later than `b`. -/
def fsLe (f : String) (desc : Bool) (a b : Booking) : Bool :=
  let o := match bookingFieldVal f a, bookingFieldVal f b with
    | some x, some y => cmpVal x y
    | _, _ => Ordering.eq
  let o' := match o with
    | Ordering.eq => compare a.id b.id
    | o => o
  match desc, o' with
  | false, Ordering.gt => false
  | false, _ => true
  | true, Ordering.lt => false
  | true, _ => true

/-- Insert into a list sorted by `le` (stability is irrelevant because the
order `fsLe` is total via the id tie-break). -/
def insertSorted (le : Booking → Booking → Bool) (b : Booking) :
    List Booking → List Booking
  | [] => [b]
  | c :: cs => if le b c then b :: c :: cs else c :: insertSorted le b cs

/-- Sort a booking list by `le`. -/
def sortBookingsBy (le : Booking → Booking → Bool) (l : List Booking) :
    List Booking :=
  l.foldr (insertSorted le) []

/-- The Firestore-level predicate of `getBookingHistory`: equality filters
(skipped on absent/empty strings) and `createdAt` range filters. -/
def fsMatch (f : Option BookingFilters) (b : Booking) : Bool :=
  ((strTruthy (f.bind (·.clientId))).all (fun c => b.clientId == c)) &&
  ((strTruthy (f.bind (·.providerId))).all (fun p => b.providerId == p)) &&
  ((strTruthy (f.bind (·.serviceId))).all (fun s => b.serviceId == s)) &&
  ((strTruthy (f.bind (·.status))).all (fun s => b.status == s)) &&
  ((f.bind (·.startDate)).all (fun d => d ≤ b.createdAt)) &&
  ((f.bind (·.endDate)).all (fun d => b.createdAt ≤ d))

/-- Effective page size: `Math.min(filters?.limit || 50, 100)` (a limit of
0 is falsy in JS and also falls back to 50). -/
def effLimit (f : Option BookingFilters) : Nat :=
  min (match f.bind (·.limit) with
       | some l => if l == 0 then 50 else l
       | none => 50) 100

/-- Effective offset: `filters?.offset || 0`. -/
def effOffset (f : Option BookingFilters) : Nat :=
  (f.bind (·.offset)).getD 0

/-- The in-memory stage of `getBookingHistory`: the Firestore query result
(filtered, ordered, truncated to `limit + 1` documents) with the amount
range filters applied afterwards in memory. -/
def historyStage (db : Db) (f : Option BookingFilters) : List Booking :=
  let sortField := (strTruthy (f.bind (·.sortBy))).getD "createdAt"
  let desc := (strTruthy (f.bind (·.sortOrder))).getD "desc" == "desc"
  let matched := (db.bookings.filter (fsMatch f)).filter
    (fun b => (bookingFieldVal sortField b).isSome)
  let fetched := (sortBookingsBy (fsLe sortField desc) matched).take
    (effLimit f + 1)
  let afterMin := match f.bind (·.minAmount) with
    | some m => fetched.filter (fun b => m ≤ b.amount)
    | none => fetched
  match f.bind (·.maxAmount) with
  | some m => afterMin.filter (fun b => b.amount ≤ m)
  | none => afterMin

/-- `BookingServiceImpl.getBookingHistory`: `hasMore` compares the staged
list against the limit, the list is cut to `limit` only when `hasMore`,
and the offset is dropped *after* that cut; `total` is the length of the
final page. -/
def getBookingHistory (db : Db) (f : Option BookingFilters) :
    BookingSearchResult :=
  let limit := effLimit f
  let offset := effOffset f
  let staged := historyStage db f
  let hasMore := decide (limit < staged.length)
  let page0 := if hasMore then staged.take limit else staged
  let page := if 0 < offset then page0.drop offset else page0
  { bookings := page, total := page.length, hasMore := hasMore,
    filters := f.getD {} }

/-! ## Concrete fixtures (the spec's end-to-end scenario: client balance
100.00, service price 40.00, provider balance 0.00) -/

/-- Example client account. -/
def clientA : User :=
  { id := "c1", fullName := "Alice", userType := "client",
    isActive := true, balance := some 100 }

/-- Example provider account. -/
def providerA : User :=
  { id := "p1", fullName := "Bob", userType := "provider",
    isActive := true, balance := some 0 }

/-- Example service priced 40, owned by the provider. -/
def serviceA : Service :=
  { id := "s1", name := "Cut", price := 40, providerId := "p1",
    providerName := "Bob", isActive := true }

/-- Example database state before any booking. -/
def db0 : Db :=
  { users := [clientA, providerA], services := [serviceA], bookings := [],
    txns := [], now := 7 }

/-- Example client with insufficient balance (10.00 < 40.00). -/
def dbPoor : Db :=
  { db0 with users := [{ clientA with balance := some 10 }, providerA] }

/-- Example account whose stored balance field is absent. -/
def userNoBal : User :=
  { id := "u1", fullName := "Nora", userType := "client",
    isActive := true, balance := none }

/-- Database containing only the balance-less account. -/
def dbNoBal : Db :=
  { users := [userNoBal], services := [], bookings := [], txns := [],
    now := 0 }

/-- A helper booking document used by the query-layer examples. -/
def mkBooking (i : String) (t : ℚ) : Booking :=
  { id := i, clientId := "c1", clientName := "Alice", serviceId := "s1",
    serviceName := "Cut", providerId := "p1", providerName := "Bob",
    amount := 40, status := "confirmed", createdAt := t,
    cancelledAt := none, cancellationReason := none }

/-- Database with two bookings for the query-layer examples. -/
def dbHist : Db :=
  { db0 with bookings := [mkBooking "b1" 2, mkBooking "b2" 1] }

/-- The example booking document as created by `createBooking db0`. -/
def bkConfirmed : Booking :=
  { id := "booking_0", clientId := "c1", clientName := "Alice",
    serviceId := "s1", serviceName := "Cut", providerId := "p1",
    providerName := "Bob", amount := 40, status := "confirmed",
    createdAt := 7, cancelledAt := none, cancellationReason := none }

/-- The example booking document after cancellation. -/
def bkCancelled : Booking :=
  { bkConfirmed with status := "cancelled", cancelledAt := some 7 }

/-- Ledger record of the example payment's client debit. -/
def txPay1 : BalanceTransaction :=
  { id := "txn_0", userId := "c1", bookingId := "booking_0", amount := 40,
    type := "debit", description := "Payment for service: Cut",
    timestamp := 7, balanceBefore := 100, balanceAfter := 60 }

/-- Ledger record of the example payment's provider credit. -/
def txPay2 : BalanceTransaction :=
  { id := "txn_1", userId := "p1", bookingId := "booking_0", amount := 40,
    type := "credit", description := "Payment received for service: Cut",
    timestamp := 7, balanceBefore := 0, balanceAfter := 40 }

/-- Ledger record of the example refund's client credit. -/
def txRef1 : BalanceTransaction :=
  { id := "txn_2", userId := "c1", bookingId := "booking_0", amount := 40,
    type := "credit", description := "Refund for cancelled booking: Cut",
    timestamp := 7, balanceBefore := 60, balanceAfter := 100 }

/-- Ledger record of the example refund's provider debit. -/
def txRef2 : BalanceTransaction :=
  { id := "txn_3", userId := "p1", bookingId := "booking_0", amount := 40,
    type := "debit",
    description := "Refund issued for cancelled booking: Cut",
    timestamp := 7, balanceBefore := 40, balanceAfter := 0 }

/-- The example client after paying 40. -/
def clientA60 : User := { clientA with balance := some 60 }

/-- The example provider after receiving 40. -/
def providerA40 : User := { providerA with balance := some 40 }

/-- State after the example booking has been created: 40 moved from the
client to the provider, booking persisted, two ledger records. -/
def dbAfterCreate : Db :=
  { users := [clientA60, providerA40],
    services := [serviceA], bookings := [bkConfirmed],
    txns := [txPay1, txPay2], now := 7 }

/-- Balances of `dbAfterCreate` without the booking document: the state
committed by the inner balance transaction alone. -/
def dbPaid : Db :=
  { users := [clientA60, providerA40],
    services := [serviceA], bookings := [],
    txns := [txPay1, txPay2], now := 7 }

/-- Balances restored by the refund, booking not yet marked cancelled. -/
def dbRefunded : Db :=
  { users := [{ clientA with balance := some 100 },
              { providerA with balance := some 0 }],
    services := [serviceA], bookings := [bkConfirmed],
    txns := [txPay1, txPay2, txRef1, txRef2], now := 7 }

/-- State after the example booking has been cancelled by its client: both
balances restored, booking cancelled, two more ledger records. -/
def dbAfterCancel : Db :=
  { users := [{ clientA with balance := some 100 },
              { providerA with balance := some 0 }],
    services := [serviceA], bookings := [bkCancelled],
    txns := [txPay1, txPay2, txRef1, txRef2], now := 7 }

/-- The example payment leg set. -/
def payOps : MultiUserBalanceOperation :=
  createBookingPaymentOperations "c1" "p1" 40 "booking_0" "Cut"

/-- The example refund leg set. -/
def refOps : MultiUserBalanceOperation :=
  createBookingRefundOperations "c1" "p1" 40 "booking_0" "Cut"

/-- The client leg of the example payment. -/
def payOpC : AtomicBalanceOperation :=
  { userId := "c1", amount := 40, type := "debit",
    description := "Payment for service: Cut", bookingId := some "booking_0" }

/-- The provider leg of the example payment. -/
def payOpP : AtomicBalanceOperation :=
  { userId := "p1", amount := 40, type := "credit",
    description := "Payment received for service: Cut",
    bookingId := some "booking_0" }

/-- The client leg of the example refund. -/
def refOpC : AtomicBalanceOperation :=
  { userId := "c1", amount := 40, type := "credit",
    description := "Refund for cancelled booking: Cut",
    bookingId := some "booking_0" }

/-- The provider leg of the example refund. -/
def refOpP : AtomicBalanceOperation :=
  { userId := "p1", amount := 40, type := "debit",
    description := "Refund issued for cancelled booking: Cut",
    bookingId := some "booking_0" }

/-- A single debit operation used as a concrete instance. -/
def wOp : AtomicBalanceOperation :=
  { userId := "c1", amount := 30, type := "debit", description := "w" }

/-- A two-leg payment operation used as a concrete instance. -/
def wMul : MultiUserBalanceOperation :=
  createBookingPaymentOperations "c1" "p1" 40 "bk" "Cut"

/-- An exact multiple of a cent (the "fixed-point, 2 decimal places"
amounts of the data model). -/
def cents (q : ℚ) : Prop := ∃ n : ℤ, q = (n : ℚ) / 100

/-- The same operation with the sign of its amount flipped. -/
def negAmount (o : AtomicBalanceOperation) : AtomicBalanceOperation :=
  { o with amount := -o.amount }

/-! ## Helper lemmas -/

/-- A found user document carries the id it was looked up by. -/
lemma findUser_id {db : Db} {uid : String} {u : User}
    (h : findUser db uid = some u) : u.id = uid := by
  have := List.find?_some h
  simpa using this

/-- `List.find?` commutes with a map that leaves the predicate invariant. -/
lemma find?_map_of_pred {α : Type} (f : α → α) (p : α → Bool)
    (h : ∀ a, p (f a) = p a) (l : List α) :
    (l.map f).find? p = (l.find? p).map f := by
  induction l with
  | nil => rfl
  | cons x xs ih =>
    simp only [List.map_cons, List.find?_cons, h x]
    cases hp : p x <;> simp [ih]

lemma find?_updateUserBalance (us : List User) (uid w : String) (v : ℚ) :
    (updateUserBalance us uid v).find? (fun u => u.id == w) =
      (us.find? (fun u => u.id == w)).map
        (fun u => if u.id == uid then { u with balance := some v } else u) := by
  unfold updateUserBalance
  refine find?_map_of_pred _ _ (fun a => ?_) us
  by_cases h : a.id = uid <;> simp [h]

/-- Balance read after a single balance write. -/
lemma balanceOf_update (db : Db) (us : List Service) (bs : List Booking)
    (ts : List BalanceTransaction) (n : ℚ) (tuid w : String) (v : ℚ) :
    balanceOf
      { users := updateUserBalance db.users tuid v, services := us,
        bookings := bs, txns := ts, now := n } w =
      match findUser db w with
      | some u => if u.id == tuid then v else u.balance.getD 0
      | none => 0 := by
  unfold balanceOf findUser
  simp only
  rw [find?_updateUserBalance]
  cases h : db.users.find? (fun u => u.id == w) with
  | none => rfl
  | some u => by_cases hu : u.id = tuid <;> simp [hu]

/-- Rounding to 2 decimal places preserves non-negativity. -/
lemma round2_nonneg {q : ℚ} (h : 0 ≤ q) : 0 ≤ round2 q := by
  unfold round2
  have h1 : (0 : ℤ) ≤ round (q * 100) := by
    rw [round_eq]; exact Int.floor_nonneg.mpr (by linarith)
  positivity

lemma cents_add {a b : ℚ} (ha : cents a) (hb : cents b) : cents (a + b) := by
  obtain ⟨m, rfl⟩ := ha; obtain ⟨n, rfl⟩ := hb
  exact ⟨m + n, by push_cast; ring⟩

lemma cents_sub {a b : ℚ} (ha : cents a) (hb : cents b) : cents (a - b) := by
  obtain ⟨m, rfl⟩ := ha; obtain ⟨n, rfl⟩ := hb
  exact ⟨m - n, by push_cast; ring⟩

/-- Rounding is the identity on exact cent amounts. -/
lemma round2_cents {q : ℚ} (h : cents q) : round2 q = q := by
  obtain ⟨n, rfl⟩ := h
  unfold round2
  rw [div_mul_cancel₀ _ (by norm_num : (100 : ℚ) ≠ 0), round_intCast]

/-- Every result produced on the all-success path of
`executeMultiUserOperation` is a success. -/
lemma applyChanges_success (bid : String) (db : Db) (cs : List BalanceChange) :
    ∀ r ∈ (applyChanges bid db cs).2, r.success = true := by
  induction cs generalizing db with
  | nil => intro r hr; simp [applyChanges] at hr
  | cons c rest ih =>
    intro r hr
    simp only [applyChanges] at hr
    rcases List.mem_cons.mp hr with h | h
    · rw [h]
    · exact ih _ _ h

/-- The all-success path never touches the services, bookings or clock. -/
lemma applyChanges_keeps (bid : String) (db : Db) (cs : List BalanceChange) :
    (applyChanges bid db cs).1.services = db.services ∧
    (applyChanges bid db cs).1.bookings = db.bookings ∧
    (applyChanges bid db cs).1.now = db.now := by
  induction cs generalizing db with
  | nil => exact ⟨rfl, rfl, rfl⟩
  | cons c rest ih => simpa [applyChanges] using ih _

/-- A failed leg in the results of `executeMultiUserOperation` means the
whole operation failed and the database is unchanged. -/
lemma executeMultiUserOperation_fail {db : Db} {m : MultiUserBalanceOperation}
    {r : BalanceOperationResult}
    (h : r ∈ (executeMultiUserOperation db m).2) (hs : r.success = false) :
    (executeMultiUserOperation db m).1 = db := by
  unfold executeMultiUserOperation at h ⊢
  cases hl : lookupUsers db m.operations with
  | error e => simp only [hl]
  | ok pairs =>
    cases hc : computeChanges pairs with
    | error e => simp only [hl, hc]
    | ok changes =>
      simp only [hl, hc] at h
      have := applyChanges_success m.bookingId db changes r h
      rw [this] at hs
      cases hs

/-- On the all-success path, `find?` sees no failed result. -/
lemma find?_fail_applyChanges (bid : String) (db : Db)
    (cs : List BalanceChange) :
    (applyChanges bid db cs).2.find? (fun r => !r.success) = none := by
  rw [List.find?_eq_none]
  intro r hr
  simp [applyChanges_success bid db cs r hr]

/-- `executeMultiUserOperation` never touches services, bookings or clock. -/
lemma executeMultiUserOperation_keeps (db : Db)
    (m : MultiUserBalanceOperation) :
    (executeMultiUserOperation db m).1.services = db.services ∧
    (executeMultiUserOperation db m).1.bookings = db.bookings ∧
    (executeMultiUserOperation db m).1.now = db.now := by
  unfold executeMultiUserOperation
  cases hl : lookupUsers db m.operations with
  | error e => simp [hl]
  | ok pairs =>
    cases hc : computeChanges pairs with
    | error e => simp [hl, hc]
    | ok changes =>
      simp only [hl, hc]
      exact applyChanges_keeps m.bookingId db changes

/-- Every pair produced by the lookup phase pairs an input operation with
the user document found for it. -/
lemma lookupUsers_ok_mem {db : Db} {ops : List AtomicBalanceOperation}
    {pairs : List (AtomicBalanceOperation × User)}
    (h : lookupUsers db ops = .ok pairs) :
    ∀ p ∈ pairs, p.1 ∈ ops ∧ findUser db p.1.userId = some p.2 := by
  induction ops generalizing pairs with
  | nil =>
    simp only [lookupUsers] at h
    cases h
    intro p hp; cases hp
  | cons op rest ih =>
    simp only [lookupUsers] at h
    cases hf : findUser db op.userId with
    | none => rw [hf] at h; cases h
    | some u =>
      rw [hf] at h
      by_cases ha : u.isActive
      · simp only [ha, Bool.not_true, Bool.false_eq_true, if_false] at h
        cases hrest : lookupUsers db rest with
        | error e => rw [hrest] at h; cases h
        | ok ps =>
          rw [hrest] at h
          cases h
          intro p hp
          rcases List.mem_cons.mp hp with hp | hp
          · subst hp; exact ⟨List.mem_cons_self _ _, hf⟩
          · obtain ⟨h1, h2⟩ := ih hrest p hp
            exact ⟨List.mem_cons_of_mem _ h1, h2⟩
      · simp only [Bool.not_eq_true] at ha
        simp only [ha, Bool.not_false, if_true] at h
        cases h

/-- Every computed change originates from a lookup pair, reading the
snapshot balance; its new balance is non-negative whenever the snapshot
balance is (a debit is guarded, a credit adds an absolute value). -/
lemma computeChanges_ok_mem {pairs : List (AtomicBalanceOperation × User)}
    {changes : List BalanceChange}
    (h : computeChanges pairs = .ok changes) :
    ∀ ch ∈ changes, ∃ u, (ch.op, u) ∈ pairs ∧
      ch.currentBalance = u.balance.getD 0 ∧
      (0 ≤ ch.currentBalance → 0 ≤ ch.newBalance) := by
  induction pairs generalizing changes with
  | nil =>
    simp only [computeChanges] at h
    cases h
    intro ch hch; cases hch
  | cons p rest ih =>
    obtain ⟨op, u⟩ := p
    simp only [computeChanges] at h
    by_cases ht : op.type == "debit"
    · rw [if_pos ht] at h
      by_cases hneg : u.balance.getD 0 - |op.amount| < 0
      · rw [if_pos hneg] at h; cases h
      · rw [if_neg hneg] at h
        cases hrest : computeChanges rest with
        | error e => rw [hrest] at h; cases h
        | ok cs =>
          rw [hrest] at h
          cases h
          intro ch hch
          rcases List.mem_cons.mp hch with hch | hch
          · subst hch
            refine ⟨u, List.mem_cons_self _ _, rfl, fun _ => ?_⟩
            exact round2_nonneg (by linarith [not_lt.mp hneg])
          · obtain ⟨u', h1, h2, h3⟩ := ih hrest ch hch
            exact ⟨u', List.mem_cons_of_mem _ h1, h2, h3⟩
    · rw [if_neg ht] at h
      cases hrest : computeChanges rest with
      | error e => rw [hrest] at h; cases h
      | ok cs =>
        rw [hrest] at h
        cases h
        intro ch hch
        rcases List.mem_cons.mp hch with hch | hch
        · subst hch
          refine ⟨u, List.mem_cons_self _ _, rfl, fun h0 => ?_⟩
          exact round2_nonneg (by positivity)
        · obtain ⟨u', h1, h2, h3⟩ := ih hrest ch hch
          exact ⟨u', List.mem_cons_of_mem _ h1, h2, h3⟩

/-- Applying the computed changes keeps account `uid` non-negative when
every change aimed at `uid` has a non-negative new balance. -/
lemma applyChanges_balance (bid : String) (uid : String)
    (cs : List BalanceChange) :
    ∀ db : Db, 0 ≤ balanceOf db uid →
      (∀ ch ∈ cs, ch.op.userId = uid → 0 ≤ ch.newBalance) →
      0 ≤ balanceOf (applyChanges bid db cs).1 uid := by
  induction cs with
  | nil => intro db h _; simpa [applyChanges] using h
  | cons c rest ih =>
    intro db h hall
    simp only [applyChanges]
    apply ih
    · rw [balanceOf_update]
      cases hf : findUser db uid with
      | none => simp
      | some u =>
        simp only
        by_cases hu : u.id = c.op.userId
        · have huid : u.id = uid := findUser_id hf
          simp only [hu, beq_self_eq_true, if_true]
          exact hall c (List.mem_cons_self _ _) (by rw [← hu, huid])
        · simp only [show (u.id == c.op.userId) = false by simp [hu], if_false]
          unfold balanceOf at h
          rw [hf] at h
          simpa using h
    · intro ch hch
      exact hall ch (List.mem_cons_of_mem _ hch)

/-- Every ledger record present after the all-success path either was
already there or records the absolute amount of one of the changes. -/
lemma applyChanges_txns (bid : String) (cs : List BalanceChange) :
    ∀ db : Db, ∀ t ∈ (applyChanges bid db cs).1.txns,
      t ∈ db.txns ∨ ∃ ch ∈ cs, t.amount = |ch.op.amount| := by
  induction cs with
  | nil => intro db t ht; exact .inl ht
  | cons c rest ih =>
    intro db t ht
    simp only [applyChanges] at ht
    rcases ih _ t ht with h | ⟨ch, h1, h2⟩
    · rcases List.mem_append.mp h with h | h
      · exact .inl h
      · simp only [List.mem_singleton] at h
        exact .inr ⟨c, List.mem_cons_self _ _, by rw [h]⟩
    · exact .inr ⟨ch, List.mem_cons_of_mem _ h1, h2⟩

/-- C4.  For every account whose balance starts non-negative, neither a
single-user nor a multi-user balance operation ever leaves it negative,
and a failing leg fails the whole multi-user unit with no balance change
to any account (the helper statement quantifies over both entry points of
the Balance Transfer Engine). -/
theorem balance_never_negative (db : Db) (op : AtomicBalanceOperation)
    (m : MultiUserBalanceOperation) (uid : String)
    (h : 0 ≤ balanceOf db uid) :
    0 ≤ balanceOf (executeAtomicOperation db op).1 uid ∧
    0 ≤ balanceOf (executeMultiUserOperation db m).1 uid ∧
    (∀ r ∈ (executeMultiUserOperation db m).2, r.success = false →
      (executeMultiUserOperation db m).1 = db) := by
  refine ⟨?_, ?_, fun r hr hs => executeMultiUserOperation_fail hr hs⟩
  · unfold executeAtomicOperation
    cases hf : findUser db op.userId with
    | none => simpa using h
    | some u =>
      by_cases ha : u.isActive
      · simp only [ha, Bool.not_true, Bool.false_eq_true, if_false]
        by_cases hneg : (op.type == "debit" && decide (u.balance.getD 0 - |op.amount| < 0)) = true
        · rw [if_pos hneg]; simpa using h
        · rw [if_neg hneg]
          rw [balanceOf_update]
          cases hf' : findUser db uid with
          | none => simp
          | some w =>
            simp only
            by_cases hw : w.id = op.userId
            · simp only [hw, beq_self_eq_true, if_true]
              have : w = u := by
                have := findUser_id hf'
                rw [this] at hw
                rw [hw] at hf'
                rw [hf] at hf'
                exact (Option.some_inj.mp hf').symm
              subst this
              apply round2_nonneg
              by_cases ht : op.type == "debit"
              · simp only [ht, if_true]
                rw [ht] at hneg
                simp only [Bool.true_and] at hneg
                have h2 : |op.amount| ≤ w.balance.getD 0 := by simpa using hneg
                linarith
              · simp only [ht, Bool.false_eq_true, if_false]
                have h0 : 0 ≤ w.balance.getD 0 := by
                  unfold balanceOf at h
                  rw [hf'] at h
                  simpa using h
                have h2 := abs_nonneg op.amount
                linarith
            · simp only [show (w.id == op.userId) = false by simp [hw], if_false]
              unfold balanceOf at h
              rw [hf'] at h
              simpa using h
      · simp only [Bool.not_eq_true] at ha
        simp only [ha, Bool.not_false, if_true]
        simpa using h
  · unfold executeMultiUserOperation
    cases hl : lookupUsers db m.operations with
    | error e => simp only [hl]; simpa using h
    | ok pairs =>
      cases hc : computeChanges pairs with
      | error e => simp only [hl, hc]; simpa using h
      | ok changes =>
        simp only [hl, hc]
        apply applyChanges_balance _ _ _ _ h
        intro ch hch hmine
        obtain ⟨u, hmem, hcur, himp⟩ := computeChanges_ok_mem hc ch hch
        obtain ⟨_, hfind⟩ := lookupUsers_ok_mem hl _ hmem
        apply himp
        rw [hcur]
        unfold balanceOf at h
        rw [hmine] at hfind
        rw [hfind] at h
        simpa using h

/-- C4 witness at a concrete state (client balance 100, debit 30; payment
transfer of 40 between the example client and provider). -/
theorem balance_never_negative_witness :
    0 ≤ balanceOf db0 "c1" ∧
    (0 ≤ balanceOf (executeAtomicOperation db0 wOp).1 "c1" ∧
     0 ≤ balanceOf (executeMultiUserOperation db0 wMul).1 "c1" ∧
     (∀ r ∈ (executeMultiUserOperation db0 wMul).2, r.success = false →
       (executeMultiUserOperation db0 wMul).1 = db0)) :=
  ⟨by decide, balance_never_negative db0 wOp wMul "c1" (by decide)⟩

/-- C7 counterexample: the leg-set constructors perform no validation, so
a non-positive amount (here 0) flows straight into both legs of the
`MultiUserBalanceOperation` — the claimed construction-time rejection does
not exist. -/
theorem leg_constructors_no_validation_counterexample :
    ¬ (∀ o ∈ (createBookingPaymentOperations "c" "p" 0 "b" "s").operations,
        0 < o.amount) ∧
    ¬ (∀ o ∈ (createBookingRefundOperations "c" "p" (-5) "b" "s").operations,
        0 < o.amount) := by
  refine ⟨?_, ?_⟩ <;> decide

/-- C7 amended: the constructors place the given amount unchanged (zero
and negative included) into both legs; only execution later takes the
absolute value.  No rejection happens at construction time. -/
theorem leg_constructors_pass_amount_through (cid pid bid sn : String)
    (a : ℚ) :
    (createBookingPaymentOperations cid pid a bid sn).operations.map
      (fun o => o.amount) = [a, a] ∧
    (createBookingRefundOperations cid pid a bid sn).operations.map
      (fun o => o.amount) = [a, a] := by
  constructor <;> rfl

/-! ## Concrete evaluation of the end-to-end scenario -/

lemma strBeq_decide (a b : String) : (a == b) = decide (a = b) := rfl

lemma lookup_pay :
    lookupUsers db0 payOps.operations =
      .ok [(payOpC, clientA), (payOpP, providerA)] := by decide

lemma changes_pay :
    computeChanges [(payOpC, clientA), (payOpP, providerA)] =
      .ok [⟨payOpC, 100, 60⟩, ⟨payOpP, 0, 40⟩] := by
  norm_num [computeChanges, clientA, providerA, payOpC, payOpP, round2,
    round_eq, Except.map, strBeq_decide]
  all_goals decide

lemma exec_pay :
    executeMultiUserOperation db0 payOps =
      (dbPaid, [⟨true, 100, 60, some "txn_0", none⟩,
                ⟨true, 0, 40, some "txn_1", none⟩]) := by
  unfold executeMultiUserOperation
  simp only [lookup_pay, changes_pay]
  decide

/-- The spec's end-to-end scenario, first half: client 100, price 40,
provider 0 — `create` succeeds, the booking is persisted `confirmed` with
amount 40, client balance 60, provider balance 40, two ledger records. -/
lemma create_db0 :
    createBooking db0 "c1" "s1" = (dbAfterCreate, .ok bkConfirmed) := by
  unfold createBooking
  have hv : validateBookingCreation db0 "c1" "s1" =
      .ok ⟨"c1", "s1", 100, 40, true, true⟩ := by decide
  have hr : validateBookingBusinessRules 100 40 true true = (true, []) := by
    decide
  have hs : findService db0 "s1" = some serviceA := by decide
  have hu : findUser db0 "c1" = some clientA := by decide
  have hops : createBookingPaymentOperations clientA.id serviceA.providerId
      serviceA.price (generateBookingId db0) serviceA.name = payOps := by decide
  simp only [hv, hr, hs, hu, hops, exec_pay]
  decide

lemma lookup_ref :
    lookupUsers dbAfterCreate refOps.operations =
      .ok [(refOpC, clientA60), (refOpP, providerA40)] := by decide

lemma changes_ref :
    computeChanges [(refOpC, clientA60), (refOpP, providerA40)] =
      .ok [⟨refOpC, 60, 100⟩, ⟨refOpP, 40, 0⟩] := by
  norm_num [computeChanges, clientA60, providerA40, clientA, providerA,
    refOpC, refOpP, round2, round_eq, Except.map, strBeq_decide]
  all_goals decide

lemma exec_ref :
    executeMultiUserOperation dbAfterCreate refOps =
      (dbRefunded, [⟨true, 60, 100, some "txn_2", none⟩,
                    ⟨true, 40, 0, some "txn_3", none⟩]) := by
  unfold executeMultiUserOperation
  simp only [lookup_ref, changes_ref]
  decide

/-- The spec's end-to-end scenario, second half: `cancel` by the client
restores both balances exactly and adds the two reversal records. -/
lemma cancel_db1 :
    cancelBooking dbAfterCreate "booking_0" "c1" "client" none =
      (dbAfterCancel, .ok bkCancelled) := by
  unfold cancelBooking
  have hb : getBookingById dbAfterCreate "booking_0" = some bkConfirmed := by
    decide
  have hcu : canUserCancelBooking bkConfirmed "c1" "client" = true := by decide
  have hro : createBookingRefundOperations bkConfirmed.clientId
      bkConfirmed.providerId (calculateRefundAmount bkConfirmed) "booking_0"
      bkConfirmed.serviceName = refOps := by decide
  simp only [hb, hcu, hro, exec_ref]
  decide

/-- C5 counterexample: after a successful cancellation, a second
`cancelBooking` call by the booking's own client fails with the
*authorization* error, not the invalid-state error the claim promises —
`canUserCancelBooking` folds the status check into the permission check,
so the dedicated invalid-state branch is unreachable. -/
theorem double_cancel_counterexample :
    (cancelBooking dbAfterCreate "booking_0" "c1" "client" none).2 =
      .ok bkCancelled ∧
    cancelBooking dbAfterCancel "booking_0" "c1" "client" none =
      (dbAfterCancel,
       .error "You do not have permission to cancel this booking") := by
  refine ⟨?_, ?_⟩
  · rw [cancel_db1]
  · decide

/-- C5 amended: a second cancellation of an already-cancelled booking
fails — but with the permission error (because the authorization helper
treats any non-confirmed booking as non-cancellable by everyone) — and
leaves the state unchanged, so balances still reflect exactly one
refund. -/
theorem cancel_cancelled_fails_unchanged (db : Db) (bid uid ty : String)
    (r : Option String) (b : Booking)
    (hb : getBookingById db bid = some b) (hs : b.status = "cancelled") :
    cancelBooking db bid uid ty r =
      (db, .error "You do not have permission to cancel this booking") := by
  unfold cancelBooking
  rw [hb]
  have hcu : canUserCancelBooking b uid ty = false := by
    unfold canUserCancelBooking canCancelBooking
    rw [hs]
    simp
  simp [hcu]

/-- C5 amended witness at the concrete twice-cancelled state. -/
theorem cancel_cancelled_fails_unchanged_witness :
    (getBookingById dbAfterCancel "booking_0" = some bkCancelled ∧
     bkCancelled.status = "cancelled") ∧
    cancelBooking dbAfterCancel "booking_0" "c1" "client" none =
      (dbAfterCancel,
       .error "You do not have permission to cancel this booking") :=
  ⟨⟨by decide, by decide⟩,
   cancel_cancelled_fails_unchanged dbAfterCancel "booking_0" "c1" "client"
     none bkCancelled (by decide) (by decide)⟩

/-- C2.  Whenever the client's current balance is below the service price
(all parties existing and active, price positive), `createBooking` throws
the insufficient-balance error before any write: the state is returned
unchanged — no booking and no balance movement. -/
theorem insufficient_balance_rejected (db : Db) (c s : String)
    (client provider : User) (service : Service)
    (hc : findUser db c = some client) (hca : client.isActive = true)
    (hct : client.userType = "client")
    (hs : findService db s = some service) (hsa : service.isActive = true)
    (hp : findUser db service.providerId = some provider)
    (hpa : provider.isActive = true)
    (hlow : client.balance.getD 0 < service.price)
    (hpos : 0 < service.price) :
    createBooking db c s =
      (db, .error "Insufficient balance to complete booking") := by
  unfold createBooking
  have hv : validateBookingCreation db c s = .ok
      ⟨client.id, service.id, client.balance.getD 0, service.price,
       service.isActive, provider.isActive⟩ := by
    unfold validateBookingCreation
    simp [hc, hca, hct, hs, hsa, hp, hpa]
  have hrules : validateBookingBusinessRules (client.balance.getD 0)
      service.price service.isActive provider.isActive =
      (false, ["Insufficient balance to complete booking"]) := by
    unfold validateBookingBusinessRules
    rw [hsa, hpa]
    simp [hlow, not_le.mpr hpos]
  simp only [hv, hrules]
  rfl

/-- C2 witness: client balance 10, price 40 — the insufficient-funds
scenario of the spec. -/
theorem insufficient_balance_rejected_witness :
    (findUser dbPoor "c1" = some { clientA with balance := some 10 } ∧
     findService dbPoor "s1" = some serviceA ∧
     findUser dbPoor "p1" = some providerA ∧
     ({ clientA with balance := some 10 } : User).balance.getD 0 <
       serviceA.price) ∧
    createBooking dbPoor "c1" "s1" =
      (dbPoor, .error "Insufficient balance to complete booking") :=
  ⟨⟨by decide, by decide, by decide, by decide⟩,
   insufficient_balance_rejected dbPoor "c1" "s1"
     { clientA with balance := some 10 } providerA serviceA (by decide)
     (by decide) (by decide) (by decide) (by decide) (by decide) (by decide)
     (by decide) (by decide)⟩

/-- C6.  For a confirmed booking, cancellation authorization passes exactly
for a party to the booking: a party caller gets past the permission check
(the call then either succeeds or fails only in the refund stage), while
any other (userId, userType) pair is rejected with the permission error
and the whole state is returned unchanged. -/
theorem cancel_authorization (db : Db) (bid uid ty : String)
    (r : Option String) (b : Booking)
    (hb : getBookingById db bid = some b) (hcf : b.status = "confirmed") :
    (((ty = "client" ∧ b.clientId = uid) ∨
      (ty = "provider" ∧ b.providerId = uid)) →
       (∃ b2, (cancelBooking db bid uid ty r).2 = .ok b2) ∨
       (∃ msg, (cancelBooking db bid uid ty r).2 =
          .error ("Refund operation failed: " ++ msg))) ∧
    (¬ ((ty = "client" ∧ b.clientId = uid) ∨
        (ty = "provider" ∧ b.providerId = uid)) →
       cancelBooking db bid uid ty r =
         (db, .error "You do not have permission to cancel this booking")) := by
  have hparty : canUserCancelBooking b uid ty = true ↔
      ((ty = "client" ∧ b.clientId = uid) ∨
       (ty = "provider" ∧ b.providerId = uid)) := by
    unfold canUserCancelBooking canCancelBooking
    rw [hcf]
    simp only [beq_self_eq_true, Bool.not_true, Bool.false_eq_true, if_false]
    by_cases h1 : (ty == "client" && b.clientId == uid) = true
    · simp only [h1, if_true]
      simp only [Bool.and_eq_true, beq_iff_eq] at h1
      simp [h1.1, h1.2]
    · by_cases h2 : (ty == "provider" && b.providerId == uid) = true
      · simp only [h1, h2, Bool.false_eq_true, if_false, if_true]
        simp only [Bool.and_eq_true, beq_iff_eq] at h2
        simp [h2.1, h2.2]
      · simp only [h1, h2, Bool.false_eq_true, if_false]
        simp only [Bool.and_eq_true, beq_iff_eq, not_and_or] at h1 h2
        constructor
        · intro hfalse; cases hfalse
        · intro hor
          exfalso
          rcases hor with ⟨ha, hb'⟩ | ⟨ha, hb'⟩
          · rcases h1 with h | h <;> exact h (by simp [ha, hb'])
          · rcases h2 with h | h <;> exact h (by simp [ha, hb'])
  constructor
  · intro hp
    have hcu : canUserCancelBooking b uid ty = true := hparty.mpr hp
    unfold cancelBooking
    rw [hb]
    simp only [hcu, Bool.not_true, Bool.false_eq_true, if_false]
    have hst : (b.status != "confirmed") = false := by simp [hcf]
    simp only [hst, Bool.false_eq_true, if_false]
    cases hfind : (executeMultiUserOperation db
        (createBookingRefundOperations b.clientId b.providerId
          (calculateRefundAmount b) bid b.serviceName)).2.find?
        (fun res => !res.success) with
    | some rr =>
      right
      exact ⟨rr.error.getD "", by simp [hfind]⟩
    | none =>
      left
      refine ⟨{ b with status := "cancelled", cancelledAt := some db.now,
                       cancellationReason := r }, ?_⟩
      simp [hfind]
  · intro hnp
    have hcu : canUserCancelBooking b uid ty = false := by
      cases h : canUserCancelBooking b uid ty
      · rfl
      · exact absurd (hparty.mp h) hnp
    unfold cancelBooking
    rw [hb]
    simp [hcu]

/-- C6 witness: on the concrete created booking, the client "c1" passes
authorization (the cancellation in fact succeeds) while a stranger "x9"
is rejected with the permission error and no state change. -/
theorem cancel_authorization_witness :
    ((∃ b2, (cancelBooking dbAfterCreate "booking_0" "c1" "client" none).2 =
        .ok b2) ∨
     (∃ msg, (cancelBooking dbAfterCreate "booking_0" "c1" "client" none).2 =
        .error ("Refund operation failed: " ++ msg))) ∧
    cancelBooking dbAfterCreate "booking_0" "x9" "client" none =
      (dbAfterCreate,
       .error "You do not have permission to cancel this booking") := by
  constructor
  · exact (cancel_authorization dbAfterCreate "booking_0" "c1" "client" none
      bkConfirmed (by decide) (by decide)).1 (Or.inl ⟨rfl, by decide⟩)
  · exact (cancel_authorization dbAfterCreate "booking_0" "x9" "client" none
      bkConfirmed (by decide) (by decide)).2 (by decide)

/-- C10.  An account whose stored balance field is absent is read as 0 by
both balance entry points: a positive debit fails with the
insufficient-balance error (state unchanged), and a positive credit of `a`
stores `round2 a` with ledger `balanceBefore = 0` — shown for
`executeAtomicOperation` and for a one-leg `executeMultiUserOperation`. -/
theorem missing_balance_reads_zero (db : Db) (uid d1 d2 bid : String)
    (b1 b2 : Option String) (a : ℚ) (u : User)
    (hu : findUser db uid = some u) (hact : u.isActive = true)
    (hnone : u.balance = none) (ha : 0 < a) :
    executeAtomicOperation db ⟨uid, a, "debit", d1, b1⟩ =
      (db, failResult ("Insufficient balance. Current: " ++ toString (0 : ℚ)
        ++ ", Required: " ++ toString a)) ∧
    (executeAtomicOperation db ⟨uid, a, "credit", d2, b2⟩).2 =
      ⟨true, 0, round2 a, some (nextTxnId db), none⟩ ∧
    balanceOf (executeAtomicOperation db ⟨uid, a, "credit", d2, b2⟩).1 uid =
      round2 a ∧
    (executeAtomicOperation db ⟨uid, a, "credit", d2, b2⟩).1.txns =
      db.txns ++ [⟨nextTxnId db, uid, b2.getD "", a, "credit", d2, db.now, 0,
                   round2 a⟩] ∧
    executeMultiUserOperation db ⟨[⟨uid, a, "debit", d1, b1⟩], bid, d1⟩ =
      (db, [failResult ("Insufficient balance for user " ++ uid
        ++ ". Current: " ++ toString (0 : ℚ) ++ ", Required: "
        ++ toString a)]) ∧
    balanceOf (executeMultiUserOperation db
      ⟨[⟨uid, a, "credit", d2, b2⟩], bid, d2⟩).1 uid = round2 a := by
  have habs : |a| = a := abs_of_pos ha
  have hneg : ((0 : ℚ) - |a| < 0) := by rw [habs]; linarith
  refine ⟨?_, ?_, ?_, ?_, ?_, ?_⟩
  · unfold executeAtomicOperation
    rw [hu]
    simp [hact, hnone, habs, hneg, ha]
  · unfold executeAtomicOperation
    rw [hu]
    simp [hact, hnone, habs]
  · unfold executeAtomicOperation
    rw [hu]
    simp only [hact, Bool.not_true, Bool.false_eq_true, if_false]
    have hcond : (("credit" == "debit")
        && decide (u.balance.getD 0 - |a| < 0)) = false := by simp
    simp only [hcond, Bool.false_eq_true, if_false]
    rw [balanceOf_update, hu]
    have hid := findUser_id hu
    simp [hid, hnone, habs]
  · unfold executeAtomicOperation
    rw [hu]
    simp [hact, hnone, habs]
  · unfold executeMultiUserOperation
    have hl : lookupUsers db [⟨uid, a, "debit", d1, b1⟩] = .ok
        [(⟨uid, a, "debit", d1, b1⟩, u)] := by
      simp [lookupUsers, hu, hact, Except.map]
    have hc : computeChanges [(⟨uid, a, "debit", d1, b1⟩, u)] =
        .error ("Insufficient balance for user " ++ uid ++ ". Current: "
          ++ toString (0 : ℚ) ++ ", Required: " ++ toString a) := by
      simp [computeChanges, hnone, habs, hneg, ha, Except.map]
    simp [hl, hc]
  · unfold executeMultiUserOperation
    have hl : lookupUsers db [⟨uid, a, "credit", d2, b2⟩] = .ok
        [(⟨uid, a, "credit", d2, b2⟩, u)] := by
      simp [lookupUsers, hu, hact, Except.map]
    have hc : computeChanges [(⟨uid, a, "credit", d2, b2⟩, u)] =
        .ok [⟨⟨uid, a, "credit", d2, b2⟩, 0, round2 a⟩] := by
      simp [computeChanges, hnone, habs, Except.map]
    simp only [hl, hc]
    simp only [applyChanges]
    rw [balanceOf_update, hu]
    have hid := findUser_id hu
    simp [hid]

/-- C10 witness on the concrete balance-less account (`balance` field
absent), debit and credit of 5. -/
theorem missing_balance_reads_zero_witness :
    executeAtomicOperation dbNoBal ⟨"u1", 5, "debit", "d", none⟩ =
      (dbNoBal, failResult ("Insufficient balance. Current: "
        ++ toString (0 : ℚ) ++ ", Required: " ++ toString (5 : ℚ))) ∧
    ((executeAtomicOperation dbNoBal ⟨"u1", 5, "credit", "d", none⟩).2 =
      ⟨true, 0, round2 5, some (nextTxnId dbNoBal), none⟩ ∧
     balanceOf (executeAtomicOperation dbNoBal
       ⟨"u1", 5, "credit", "d", none⟩).1 "u1" = round2 5 ∧
     (executeAtomicOperation dbNoBal ⟨"u1", 5, "credit", "d", none⟩).1.txns =
       dbNoBal.txns ++ [⟨nextTxnId dbNoBal, "u1", "", 5, "credit", "d",
                         dbNoBal.now, 0, round2 5⟩] ∧
     executeMultiUserOperation dbNoBal ⟨[⟨"u1", 5, "debit", "d", none⟩],
         "bk", "d"⟩ =
       (dbNoBal, [failResult ("Insufficient balance for user u1. Current: "
         ++ toString (0 : ℚ) ++ ", Required: " ++ toString (5 : ℚ))]) ∧
     balanceOf (executeMultiUserOperation dbNoBal
       ⟨[⟨"u1", 5, "credit", "d", none⟩], "bk", "d"⟩).1 "u1" = round2 5) := by
  have h := missing_balance_reads_zero dbNoBal "u1" "d" "d" "bk" none none 5
    userNoBal (by decide) (by decide) (by decide) (by decide)
  obtain ⟨h1, h2, h3, h4, h5, h6⟩ := h
  exact ⟨h1, h2, h3, h4, by simpa using h5, h6⟩

/-- C8 counterexample: two matching bookings, page size 1.  The returned
`total` is 1 — the page length — not the match count 2, and the slices at
offsets 0 and 1 do not reassemble the first two positions of the filtered
set (the offset-1 page is empty because the offset is applied after the
cut to `limit`). -/
theorem history_pagination_counterexample :
    (getBookingHistory dbHist (some { limit := some 1 })).total ≠
      (dbHist.bookings.filter
        (fsMatch (some { limit := some 1 }))).length ∧
    (getBookingHistory dbHist (some { limit := some 1 })).bookings ++
      (getBookingHistory dbHist
        (some { limit := some 1, offset := some 1 })).bookings ≠
      (sortBookingsBy (fsLe "createdAt" true)
        (dbHist.bookings.filter
          (fsMatch (some { limit := some 1 })))).take 2 := by
  refine ⟨?_, ?_⟩ <;> decide

/-- C8 amended: `getBookingHistory` is a pure function of the stored
bookings and filters (hence deterministic), but `total` equals the length
of the returned page (not the number of matching records), `hasMore`
compares the staged list against the limit, and the offset is dropped
only after the page has been cut to `limit`, so the returned page is
`(staged page).drop offset` and any request with `offset ≥ limit` yields
an empty page instead of the next slice. -/
theorem history_total_and_offset (db : Db) (f : Option BookingFilters) :
    (getBookingHistory db f).total =
      (getBookingHistory db f).bookings.length ∧
    (getBookingHistory db f).hasMore =
      decide (effLimit f < (historyStage db f).length) ∧
    (getBookingHistory db f).bookings =
      (if effLimit f < (historyStage db f).length then
        (historyStage db f).take (effLimit f)
       else historyStage db f).drop (effOffset f) ∧
    (effLimit f ≤ effOffset f → (getBookingHistory db f).bookings = []) := by
  have hpage : (getBookingHistory db f).bookings =
      (if effLimit f < (historyStage db f).length then
        (historyStage db f).take (effLimit f)
       else historyStage db f).drop (effOffset f) := by
    unfold getBookingHistory
    by_cases hm : effLimit f < (historyStage db f).length
    · simp only [hm, decide_eq_true_eq, if_pos hm, decide_eq_true]
      cases ho : effOffset f with
      | zero => simp
      | succ k => simp
    · simp only [hm, if_neg hm, decide_eq_false hm]
      cases ho : effOffset f with
      | zero => simp
      | succ k => simp
  refine ⟨?_, ?_, hpage, ?_⟩
  · unfold getBookingHistory
    rfl
  · unfold getBookingHistory
    rfl
  · intro hle
    rw [hpage]
    apply List.drop_eq_nil_of_le
    by_cases hm : effLimit f < (historyStage db f).length
    · rw [if_pos hm]
      exact le_trans (List.length_take_le _ _) hle
    · rw [if_neg hm]
      exact le_trans (not_lt.mp hm) hle

/-- C8 amended witness at the concrete two-booking store with limit 1 and
offset 1 (offset ≥ limit ⇒ empty page). -/
theorem history_total_and_offset_witness :
    ((getBookingHistory dbHist
        (some { limit := some 1, offset := some 1 })).total =
      (getBookingHistory dbHist
        (some { limit := some 1, offset := some 1 })).bookings.length) ∧
    (getBookingHistory dbHist
      (some { limit := some 1, offset := some 1 })).bookings = [] := by
  have h := history_total_and_offset dbHist
    (some { limit := some 1, offset := some 1 })
  exact ⟨h.1, h.2.2.2 (by decide)⟩

/-- The lookup phase ignores amounts: flipping the sign of every amount
just flips it inside the returned pairs. -/
lemma lookupUsers_neg (db : Db) (ops : List AtomicBalanceOperation) :
    lookupUsers db (ops.map negAmount) =
      (lookupUsers db ops).map (List.map (fun p => (negAmount p.1, p.2))) := by
  induction ops with
  | nil => rfl
  | cons op rest ih =>
    simp only [List.map_cons, lookupUsers]
    have : (negAmount op).userId = op.userId := rfl
    rw [this]
    cases findUser db op.userId with
    | none => rfl
    | some u =>
      by_cases ha : u.isActive <;>
        cases hrest : lookupUsers db rest <;>
          simp [ha, ih, hrest, Except.map]

/-- The change computation uses only the absolute value of each amount. -/
lemma computeChanges_neg (pairs : List (AtomicBalanceOperation × User)) :
    computeChanges (pairs.map (fun p => (negAmount p.1, p.2))) =
      (computeChanges pairs).map
        (List.map (fun ch => ⟨negAmount ch.op, ch.currentBalance,
                              ch.newBalance⟩)) := by
  induction pairs with
  | nil => rfl
  | cons p rest ih =>
    obtain ⟨op, u⟩ := p
    simp only [List.map_cons, computeChanges]
    have ht : (negAmount op).type = op.type := rfl
    have hb : |(negAmount op).amount| = |op.amount| := abs_neg op.amount
    rw [ht, hb]
    by_cases hty : (op.type == "debit") = true
    · rw [if_pos hty, if_pos hty]
      by_cases hneg : u.balance.getD 0 - |op.amount| < 0
      · rw [if_pos hneg, if_pos hneg]
        have : (negAmount op).userId = op.userId := rfl
        rw [this]
        rfl
      · rw [if_neg hneg, if_neg hneg]
        cases hrest : computeChanges rest <;> simp [ih, hrest, Except.map]
    · rw [if_neg hty, if_neg hty]
      cases hrest : computeChanges rest <;> simp [ih, hrest, Except.map]

/-- Applying sign-flipped changes produces identical states and results:
every stored quantity already is an absolute value. -/
lemma applyChanges_neg (bid : String) (cs : List BalanceChange) :
    ∀ db : Db,
      applyChanges bid db (cs.map (fun ch => ⟨negAmount ch.op,
        ch.currentBalance, ch.newBalance⟩)) = applyChanges bid db cs := by
  induction cs with
  | nil => intro db; rfl
  | cons c rest ih =>
    intro db
    simp only [List.map_cons, applyChanges]
    have h1 : (negAmount c.op).userId = c.op.userId := rfl
    have h2 : |(negAmount c.op).amount| = |c.op.amount| := abs_neg c.op.amount
    have h3 : (negAmount c.op).type = c.op.type := rfl
    have h4 : (negAmount c.op).description = c.op.description := rfl
    rw [h1, h2, h3, h4, ih]

/-- C9.  Both balance entry points are sign-insensitive in the amount:
negating every amount changes neither the resulting state nor the results,
and every ledger record written stores the absolute value of its leg's
amount — the direction of movement comes only from the `type` field. -/
theorem amount_sign_insensitive (db : Db) (op : AtomicBalanceOperation)
    (m : MultiUserBalanceOperation) :
    executeAtomicOperation db (negAmount op) = executeAtomicOperation db op ∧
    executeMultiUserOperation db
      { m with operations := m.operations.map negAmount } =
      executeMultiUserOperation db m ∧
    (∀ t ∈ (executeAtomicOperation db op).1.txns,
      t ∈ db.txns ∨ t.amount = |op.amount|) ∧
    (∀ t ∈ (executeMultiUserOperation db m).1.txns,
      t ∈ db.txns ∨ ∃ o ∈ m.operations, t.amount = |o.amount|) := by
  refine ⟨?_, ?_, ?_, ?_⟩
  · unfold executeAtomicOperation
    have h1 : (negAmount op).userId = op.userId := rfl
    have h2 : |(negAmount op).amount| = |op.amount| := abs_neg op.amount
    have h3 : (negAmount op).type = op.type := rfl
    have h4 : (negAmount op).description = op.description := rfl
    have h5 : (negAmount op).bookingId = op.bookingId := rfl
    rw [h1, h2, h3, h4, h5]
  · unfold executeMultiUserOperation
    have hops : ({ m with operations := m.operations.map negAmount }
        : MultiUserBalanceOperation).operations = m.operations.map negAmount :=
      rfl
    have hbid : ({ m with operations := m.operations.map negAmount }
        : MultiUserBalanceOperation).bookingId = m.bookingId := rfl
    rw [hops, hbid, lookupUsers_neg]
    cases hl : lookupUsers db m.operations with
    | error e => simp [Except.map, List.map_map, Function.comp_def]
    | ok pairs =>
      simp only [Except.map]
      rw [computeChanges_neg]
      cases hc : computeChanges pairs with
      | error e => simp [Except.map, List.map_map, Function.comp_def]
      | ok changes => simp [Except.map, applyChanges_neg]
  · unfold executeAtomicOperation
    cases hf : findUser db op.userId with
    | none => intro t ht; exact .inl ht
    | some u =>
      by_cases ha : u.isActive
      · simp only [ha, Bool.not_true, Bool.false_eq_true, if_false]
        by_cases hneg : (op.type == "debit"
            && decide (u.balance.getD 0 - |op.amount| < 0)) = true
        · rw [if_pos hneg]; intro t ht; exact .inl ht
        · rw [if_neg hneg]
          intro t ht
          simp only at ht
          rcases List.mem_append.mp ht with h | h
          · exact .inl h
          · simp only [List.mem_singleton] at h
            subst h
            exact .inr rfl
      · simp only [Bool.not_eq_true] at ha
        simp only [ha, Bool.not_false, if_true]
        intro t ht; exact .inl ht
  · unfold executeMultiUserOperation
    cases hl : lookupUsers db m.operations with
    | error e => simp only [hl]; intro t ht; exact .inl ht
    | ok pairs =>
      cases hc : computeChanges pairs with
      | error e => simp only [hl, hc]; intro t ht; exact .inl ht
      | ok changes =>
        simp only [hl, hc]
        intro t ht
        rcases applyChanges_txns m.bookingId changes db t ht with h | ⟨ch, hch, hamt⟩
        · exact .inl h
        · obtain ⟨u, hmem, _, _⟩ := computeChanges_ok_mem hc ch hch
          obtain ⟨hop, _⟩ := lookupUsers_ok_mem hl _ hmem
          exact .inr ⟨ch.op, hop, hamt⟩

/-- C1.  `createBooking` is all-or-nothing (sequential semantics): when it
throws, the returned state is exactly the input state — no booking
document and no balance change survive; when it succeeds, the returned
state is exactly the state committed by the two-leg payment transfer
(every leg successful) with the new booking appended. -/
theorem create_booking_atomic (db : Db) (c s : String) :
    (∀ e, (createBooking db c s).2 = .error e →
      (createBooking db c s).1 = db) ∧
    (∀ b, (createBooking db c s).2 = .ok b →
      ∃ client service,
        findUser db c = some client ∧ findService db s = some service ∧
        b.id = generateBookingId db ∧ b.status = "confirmed" ∧
        b.amount = service.price ∧
        (∀ r ∈ (executeMultiUserOperation db (createBookingPaymentOperations
            client.id service.providerId service.price b.id service.name)).2,
          r.success = true) ∧
        (createBooking db c s).1 =
          { (executeMultiUserOperation db (createBookingPaymentOperations
              client.id service.providerId service.price b.id
              service.name)).1 with bookings := db.bookings ++ [b] }) := by
  unfold createBooking
  rcases hval : validateBookingCreation db c s with e | ctx
  · constructor
    · intro e' _; rfl
    · intro b hb; simp at hb
  · by_cases hr : (validateBookingBusinessRules ctx.clientBalance
        ctx.servicePrice ctx.serviceActive ctx.providerActive).1 = true
    · simp only [hr, Bool.not_true, Bool.false_eq_true, if_false]
      rcases hfs : findService db s with _ | service
      · rcases hfu : findUser db c with _ | client
        · exact ⟨fun e' _ => rfl, fun b hb => by simp at hb⟩
        · exact ⟨fun e' _ => rfl, fun b hb => by simp at hb⟩
      · rcases hfu : findUser db c with _ | client
        · exact ⟨fun e' _ => rfl, fun b hb => by simp at hb⟩
        · cases hfind : (executeMultiUserOperation db
            (createBookingPaymentOperations client.id service.providerId
              service.price (generateBookingId db) service.name)).2.find?
            (fun r => !r.success) with
          | some r =>
            simp only [hfind]
            constructor
            · intro e' _
              have hmem := List.mem_of_find?_eq_some hfind
              have hp := List.find?_some hfind
              simp only [Bool.not_eq_true'] at hp
              exact executeMultiUserOperation_fail hmem hp
            · intro b hb; simp at hb
          | none =>
            simp only [hfind]
            constructor
            · intro e' he; simp at he
            · intro b hb
              simp only [Except.ok.injEq] at hb
              subst hb
              refine ⟨client, service, rfl, rfl, rfl, rfl, rfl, ?_, ?_⟩
              · intro r hr'
                have := List.find?_eq_none.mp hfind r hr'
                simpa using this
              · have hkeeps := (executeMultiUserOperation_keeps db
                  (createBookingPaymentOperations client.id
                    service.providerId service.price (generateBookingId db)
                    service.name)).2.1
                rw [hkeeps]
    · rw [Bool.not_eq_true] at hr
      refine ⟨fun e' _ => ?_, fun b hb => ?_⟩
      · simp [hr]
      · simp [hr] at hb

/-- C1 witness: the error leg at the underfunded state (state unchanged)
and the success leg at the example state (transfer state plus appended
booking). -/
theorem create_booking_atomic_witness :
    (createBooking dbPoor "c1" "s1").1 = dbPoor ∧
    (∃ client service,
      findUser db0 "c1" = some client ∧ findService db0 "s1" = some service ∧
      bkConfirmed.id = generateBookingId db0 ∧
      bkConfirmed.status = "confirmed" ∧
      bkConfirmed.amount = service.price ∧
      (∀ r ∈ (executeMultiUserOperation db0 (createBookingPaymentOperations
          client.id service.providerId service.price bkConfirmed.id
          service.name)).2, r.success = true) ∧
      (createBooking db0 "c1" "s1").1 =
        { (executeMultiUserOperation db0 (createBookingPaymentOperations
            client.id service.providerId service.price bkConfirmed.id
            service.name)).1 with
          bookings := db0.bookings ++ [bkConfirmed] }) := by
  constructor
  · exact (create_booking_atomic dbPoor "c1" "s1").1
      "Insufficient balance to complete booking" (by decide)
  · exact (create_booking_atomic db0 "c1" "s1").2 bkConfirmed
      (by rw [create_db0])

/-- Closed form of a successful two-leg `executeMultiUserOperation`. -/
lemma exec_two_legs (db : Db) (o1 o2 : AtomicBalanceOperation)
    (u1 u2 : User) (bid d : String) (c1 n1 c2 n2 : ℚ)
    (h1 : findUser db o1.userId = some u1) (ha1 : u1.isActive = true)
    (h2 : findUser db o2.userId = some u2) (ha2 : u2.isActive = true)
    (hch : computeChanges [(o1, u1), (o2, u2)] =
      .ok [⟨o1, c1, n1⟩, ⟨o2, c2, n2⟩]) :
    executeMultiUserOperation db ⟨[o1, o2], bid, d⟩ =
      ({ db with
          users := updateUserBalance (updateUserBalance db.users o1.userId n1)
            o2.userId n2,
          txns := db.txns ++ [⟨nextTxnId db, o1.userId, bid, |o1.amount|,
              o1.type, o1.description, db.now, c1, n1⟩]
            ++ [⟨"txn_" ++ toString (db.txns.length + 1), o2.userId, bid,
                |o2.amount|, o2.type, o2.description, db.now, c2, n2⟩] },
       [⟨true, c1, n1, some (nextTxnId db), none⟩,
        ⟨true, c2, n2, some ("txn_" ++ toString (db.txns.length + 1)),
         none⟩]) := by
  unfold executeMultiUserOperation
  have hl : lookupUsers db [o1, o2] = .ok [(o1, u1), (o2, u2)] := by
    simp [lookupUsers, h1, ha1, h2, ha2, Except.map]
  simp only [hl, hch]
  simp only [applyChanges]
  simp [nextTxnId, List.length_append]

/-- Closed form of a successful `createBooking` under the booking
preconditions (2-decimal-place balances and price keep rounding exact). -/
lemma create_closed (db : Db) (c s : String)
    (client provider : User) (service : Service)
    (hc : findUser db c = some client) (hca : client.isActive = true)
    (hct : client.userType = "client")
    (hs : findService db s = some service) (hsa : service.isActive = true)
    (hp : findUser db service.providerId = some provider)
    (hpa : provider.isActive = true)
    (hcb : cents (client.balance.getD 0))
    (hpb : cents (provider.balance.getD 0))
    (hpr : cents service.price)
    (haff : service.price ≤ client.balance.getD 0)
    (hpos : 0 < service.price) :
    createBooking db c s =
      ({ db with
          users := updateUserBalance (updateUserBalance db.users client.id
              (client.balance.getD 0 - service.price)) service.providerId
              (provider.balance.getD 0 + service.price),
          bookings := db.bookings ++
            [⟨generateBookingId db, client.id, client.fullName, service.id,
              service.name, service.providerId, service.providerName,
              service.price, "confirmed", db.now, none, none⟩],
          txns := db.txns ++ [⟨nextTxnId db, client.id, generateBookingId db,
              service.price, "debit", "Payment for service: " ++ service.name,
              db.now, client.balance.getD 0,
              client.balance.getD 0 - service.price⟩]
            ++ [⟨"txn_" ++ toString (db.txns.length + 1), service.providerId,
                generateBookingId db, service.price, "credit",
                "Payment received for service: " ++ service.name, db.now,
                provider.balance.getD 0,
                provider.balance.getD 0 + service.price⟩] },
       .ok ⟨generateBookingId db, client.id, client.fullName, service.id,
            service.name, service.providerId, service.providerName,
            service.price, "confirmed", db.now, none, none⟩) := by
  have habs : |service.price| = service.price := abs_of_pos hpos
  have hcid : client.id = c := findUser_id hc
  have hc' : findUser db client.id = some client := by rw [hcid]; exact hc
  have hv : validateBookingCreation db c s = .ok
      ⟨client.id, service.id, client.balance.getD 0, service.price,
       service.isActive, provider.isActive⟩ := by
    unfold validateBookingCreation
    simp [hc, hca, hct, hs, hsa, hp, hpa]
  have hrules : validateBookingBusinessRules (client.balance.getD 0)
      service.price service.isActive provider.isActive = (true, []) := by
    unfold validateBookingBusinessRules
    rw [hsa, hpa]
    simp [not_lt.mpr haff, not_le.mpr hpos]
  have hch : computeChanges
      [(⟨client.id, service.price, "debit",
         "Payment for service: " ++ service.name,
         some (generateBookingId db)⟩, client),
       (⟨service.providerId, service.price, "credit",
         "Payment received for service: " ++ service.name,
         some (generateBookingId db)⟩, provider)] =
      .ok [⟨⟨client.id, service.price, "debit",
             "Payment for service: " ++ service.name,
             some (generateBookingId db)⟩, client.balance.getD 0,
            client.balance.getD 0 - service.price⟩,
           ⟨⟨service.providerId, service.price, "credit",
             "Payment received for service: " ++ service.name,
             some (generateBookingId db)⟩, provider.balance.getD 0,
            provider.balance.getD 0 + service.price⟩] := by
    simp only [computeChanges]
    rw [if_pos (by rfl)]
    rw [if_neg (by rw [habs]; simp; linarith)]
    rw [if_neg (by simp)]
    rw [habs, round2_cents (cents_sub hcb hpr),
        round2_cents (cents_add hpb hpr)]
    rfl
  have hexec := exec_two_legs db _ _ client provider (generateBookingId db)
    ("Booking payment for service: " ++ service.name)
    (client.balance.getD 0) (client.balance.getD 0 - service.price)
    (provider.balance.getD 0) (provider.balance.getD 0 + service.price)
    hc' hca hp hpa hch
  unfold createBooking
  simp only [hv, hrules, hs, hc, Bool.not_true, Bool.false_eq_true, if_false,
    createBookingPaymentOperations]
  rw [hexec]
  simp [habs]

/-- Closed form of a successful `cancelBooking` by the booking's client
when the refund legs go through. -/
lemma cancel_two_legs (db1 : Db) (bid c : String) (bk : Booking)
    (u1 u2 : User) (c1 n1 c2 n2 : ℚ)
    (hgb : getBookingById db1 bid = some bk)
    (hst : bk.status = "confirmed") (hcl : bk.clientId = c)
    (h1 : findUser db1 bk.clientId = some u1) (ha1 : u1.isActive = true)
    (h2 : findUser db1 bk.providerId = some u2) (ha2 : u2.isActive = true)
    (hch : computeChanges
      [(⟨bk.clientId, bk.amount, "credit",
         "Refund for cancelled booking: " ++ bk.serviceName, some bid⟩, u1),
       (⟨bk.providerId, bk.amount, "debit",
         "Refund issued for cancelled booking: " ++ bk.serviceName,
         some bid⟩, u2)] =
      .ok [⟨⟨bk.clientId, bk.amount, "credit",
             "Refund for cancelled booking: " ++ bk.serviceName,
             some bid⟩, c1, n1⟩,
           ⟨⟨bk.providerId, bk.amount, "debit",
             "Refund issued for cancelled booking: " ++ bk.serviceName,
             some bid⟩, c2, n2⟩]) :
    cancelBooking db1 bid c "client" none =
      ({ db1 with
          users := updateUserBalance (updateUserBalance db1.users
            bk.clientId n1) bk.providerId n2,
          bookings := markCancelled db1.bookings bid db1.now none,
          txns := db1.txns ++ [⟨nextTxnId db1, bk.clientId, bid, |bk.amount|,
              "credit", "Refund for cancelled booking: " ++ bk.serviceName,
              db1.now, c1, n1⟩]
            ++ [⟨"txn_" ++ toString (db1.txns.length + 1), bk.providerId,
                bid, |bk.amount|, "debit",
                "Refund issued for cancelled booking: " ++ bk.serviceName,
                db1.now, c2, n2⟩] },
       .ok { bk with status := "cancelled", cancelledAt := some db1.now,
                     cancellationReason := none }) := by
  have hcu : canUserCancelBooking bk c "client" = true := by
    unfold canUserCancelBooking canCancelBooking
    rw [hst, hcl]
    simp
  have hexec := exec_two_legs db1
    ⟨bk.clientId, bk.amount, "credit",
     "Refund for cancelled booking: " ++ bk.serviceName, some bid⟩
    ⟨bk.providerId, bk.amount, "debit",
     "Refund issued for cancelled booking: " ++ bk.serviceName, some bid⟩
    u1 u2 bid ("Booking refund for service: " ++ bk.serviceName)
    c1 n1 c2 n2 h1 ha1 h2 ha2 hch
  unfold cancelBooking
  simp only [hgb, hcu, Bool.not_true, Bool.false_eq_true, if_false, hst,
    calculateRefundAmount, createBookingRefundOperations]
  rw [if_neg (by simp)]
  rw [hexec]
  rfl

/-- Reading back a document after the two balance writes of a transfer. -/
lemma find?_two_updates (us : List User) (w1 w2 : String) (v1 v2 : ℚ)
    (u1 u2 : User)
    (h1 : us.find? (fun u => u.id == w1) = some u1)
    (h2 : us.find? (fun u => u.id == w2) = some u2)
    (hne : w1 ≠ w2) :
    (updateUserBalance (updateUserBalance us w1 v1) w2 v2).find?
      (fun u => u.id == w1) = some { u1 with balance := some v1 } ∧
    (updateUserBalance (updateUserBalance us w1 v1) w2 v2).find?
      (fun u => u.id == w2) = some { u2 with balance := some v2 } := by
  have hu1 : u1.id = w1 := by simpa using List.find?_some h1
  have hu2 : u2.id = w2 := by simpa using List.find?_some h2
  have hne2 : w2 ≠ w1 := fun h => hne h.symm
  constructor
  · rw [find?_updateUserBalance, find?_updateUserBalance, h1]
    simp [hu1, hne]
  · rw [find?_updateUserBalance, find?_updateUserBalance, h2]
    simp [hu2, hne2]

/-- C3.  Money is moved, not created: a successful `createBooking` (all
parties active, distinct client and provider, 2-decimal balances and
price, sufficient funds, fresh booking id) preserves
`clientBalance + providerBalance` exactly, and the subsequent
`cancelBooking` by the client succeeds and restores both balances to
their pre-create values exactly — the refund always moves the full
original booking amount back. -/
theorem conservation_and_refund (db : Db) (c s : String)
    (client provider : User) (service : Service)
    (hc : findUser db c = some client) (hca : client.isActive = true)
    (hct : client.userType = "client")
    (hs : findService db s = some service) (hsa : service.isActive = true)
    (hp : findUser db service.providerId = some provider)
    (hpa : provider.isActive = true)
    (hcp : c ≠ service.providerId)
    (hcb : cents (client.balance.getD 0))
    (hpb : cents (provider.balance.getD 0))
    (hpr : cents service.price)
    (h0p : 0 ≤ provider.balance.getD 0)
    (haff : service.price ≤ client.balance.getD 0)
    (hpos : 0 < service.price)
    (hfresh : getBookingById db (generateBookingId db) = none) :
    ∃ b db1 db2 b2,
      createBooking db c s = (db1, .ok b) ∧
      balanceOf db1 c + balanceOf db1 service.providerId =
        balanceOf db c + balanceOf db service.providerId ∧
      cancelBooking db1 b.id c "client" none = (db2, .ok b2) ∧
      balanceOf db2 c = balanceOf db c ∧
      balanceOf db2 service.providerId = balanceOf db service.providerId := by
  have habs : |service.price| = service.price := abs_of_pos hpos
  have hcid : client.id = c := findUser_id hc
  have hccp : client.id ≠ service.providerId := by rw [hcid]; exact hcp
  have hc' : db.users.find? (fun u => u.id == client.id) = some client := by
    rw [hcid]; exact hc
  have hp' : db.users.find? (fun u => u.id == service.providerId) =
      some provider := hp
  have hfresh' : db.bookings.find?
      (fun b => b.id == generateBookingId db) = none := hfresh
  have hCB := create_closed db c s client provider service hc hca hct hs hsa
    hp hpa hcb hpb hpr haff hpos
  obtain ⟨db1, bk, hCB, hdb1u, hdb1b, hdb1n, hbk⟩ :
      ∃ db1 bk, createBooking db c s = (db1, .ok bk) ∧
        db1.users = updateUserBalance (updateUserBalance db.users client.id
          (client.balance.getD 0 - service.price)) service.providerId
          (provider.balance.getD 0 + service.price) ∧
        db1.bookings = db.bookings ++ [bk] ∧
        db1.now = db.now ∧
        bk = ⟨generateBookingId db, client.id, client.fullName, service.id,
              service.name, service.providerId, service.providerName,
              service.price, "confirmed", db.now, none, none⟩ :=
    ⟨_, _, hCB, rfl, rfl, rfl, rfl⟩
  have hf1 := find?_two_updates db.users client.id service.providerId
    (client.balance.getD 0 - service.price)
    (provider.balance.getD 0 + service.price) client provider hc' hp' hccp
  have hgb : getBookingById db1 (generateBookingId db) = some bk := by
    unfold getBookingById
    rw [hdb1b, List.find?_append, hfresh', Option.none_or, hbk]
    simp [List.find?]
  have h1 : findUser db1 bk.clientId =
      some { client with
             balance := some (client.balance.getD 0 - service.price) } := by
    unfold findUser
    rw [hdb1u, hbk]
    exact hf1.1
  have h2 : findUser db1 bk.providerId =
      some { provider with
             balance := some (provider.balance.getD 0 + service.price) } := by
    unfold findUser
    rw [hdb1u, hbk]
    exact hf1.2
  have hch2 : computeChanges
      [(⟨bk.clientId, bk.amount, "credit",
         "Refund for cancelled booking: " ++ bk.serviceName,
         some (generateBookingId db)⟩,
        { client with
          balance := some (client.balance.getD 0 - service.price) }),
       (⟨bk.providerId, bk.amount, "debit",
         "Refund issued for cancelled booking: " ++ bk.serviceName,
         some (generateBookingId db)⟩,
        { provider with
          balance := some (provider.balance.getD 0 + service.price) })] =
      .ok [⟨⟨bk.clientId, bk.amount, "credit",
             "Refund for cancelled booking: " ++ bk.serviceName,
             some (generateBookingId db)⟩,
            client.balance.getD 0 - service.price, client.balance.getD 0⟩,
           ⟨⟨bk.providerId, bk.amount, "debit",
             "Refund issued for cancelled booking: " ++ bk.serviceName,
             some (generateBookingId db)⟩,
            provider.balance.getD 0 + service.price,
            provider.balance.getD 0⟩] := by
    rw [hbk]
    simp only [computeChanges]
    rw [if_neg (by simp)]
    rw [if_pos (show (("debit" : String) == "debit") = true from rfl)]
    simp only [Option.getD_some]
    have hguard : ¬ ((provider.balance.getD 0 + service.price : ℚ)
        - |service.price| < 0) := by
      rw [habs, add_sub_cancel_right]
      exact not_lt.mpr (by linarith)
    rw [if_neg hguard]
    simp only [Option.getD_some, habs, sub_add_cancel, add_sub_cancel_right,
      round2_cents hcb, round2_cents hpb, Except.map]
  have hCancel := cancel_two_legs db1 (generateBookingId db) c bk
    { client with balance := some (client.balance.getD 0 - service.price) }
    { provider with balance := some (provider.balance.getD 0 + service.price) }
    (client.balance.getD 0 - service.price) (client.balance.getD 0)
    (provider.balance.getD 0 + service.price) (provider.balance.getD 0)
    hgb (by rw [hbk]) (by rw [hbk]; exact hcid) h1 hca h2 hpa hch2
  have hf2 := find?_two_updates db1.users bk.clientId bk.providerId
    (client.balance.getD 0) (provider.balance.getD 0)
    { client with balance := some (client.balance.getD 0 - service.price) }
    { provider with balance := some (provider.balance.getD 0 + service.price) }
    h1 h2 (by rw [hbk]; exact hccp)
  have hbkid : bk.id = generateBookingId db := by rw [hbk]
  have hCancel2 : cancelBooking db1 bk.id c "client" none =
      (cancelBooking db1 (generateBookingId db) c "client" none) := by
    rw [hbkid]
  have hb1c : balanceOf db1 c = client.balance.getD 0 - service.price := by
    unfold balanceOf findUser
    rw [hdb1u, ← hcid, hf1.1]
    rfl
  have hb1p : balanceOf db1 service.providerId =
      provider.balance.getD 0 + service.price := by
    unfold balanceOf findUser
    rw [hdb1u, hf1.2]
    rfl
  have hbc : balanceOf db c = client.balance.getD 0 := by
    unfold balanceOf
    rw [hc]
    rfl
  have hbp : balanceOf db service.providerId = provider.balance.getD 0 := by
    unfold balanceOf
    rw [hp]
    rfl
  have hbkc : bk.clientId = client.id := by rw [hbk]
  have hbkp : bk.providerId = service.providerId := by rw [hbk]
  rw [hbkc, hbkp] at hf2
  refine ⟨bk, db1, _, _, hCB, ?_, hCancel2.trans hCancel, ?_, ?_⟩
  · rw [hb1c, hb1p, hbc, hbp]; ring
  · unfold balanceOf findUser
    simp only
    rw [hbkc, hbkp, ← hcid, hf2.1, hc']
    rfl
  · unfold balanceOf findUser
    simp only
    rw [hbkc, hbkp, hf2.2, hp']
    rfl

/-- C3 witness: the spec scenario client 100 / price 40 / provider 0. -/
theorem conservation_and_refund_witness :
    ∃ b db1 db2 b2,
      createBooking db0 "c1" "s1" = (db1, .ok b) ∧
      balanceOf db1 "c1" + balanceOf db1 serviceA.providerId =
        balanceOf db0 "c1" + balanceOf db0 serviceA.providerId ∧
      cancelBooking db1 b.id "c1" "client" none = (db2, .ok b2) ∧
      balanceOf db2 "c1" = balanceOf db0 "c1" ∧
      balanceOf db2 serviceA.providerId = balanceOf db0 serviceA.providerId :=
  conservation_and_refund db0 "c1" "s1" clientA providerA serviceA
    (by decide) (by decide) (by decide) (by decide) (by decide) (by decide)
    (by decide) (by decide) ⟨10000, by norm_num [clientA]⟩
    ⟨0, by norm_num [providerA]⟩ ⟨4000, by norm_num [serviceA]⟩
    (by decide) (by decide) (by decide) (by decide)
